import Mathlib

/-!
# Verification of the spreadsheet-ingestion pipeline

A shallow embedding, in Lean 4, of the delivery-import system's core:
the dependent-field recompute service (`recomputeService.js`), the
Excel ingestion service (`excelImportService.js`), and the
conflict-resolution route (`PUT /api/import/conflicts/:id/resolve`).

Modelling conventions:
* JavaScript numbers are modelled as rationals (`ℚ`).  All the concrete
  values exercised below are far from representation or rounding
  boundaries of IEEE doubles, so the rational model agrees with the
  JavaScript evaluation at every input used in a theorem.
* `Number.prototype.toFixed(2)` followed by `parseFloat` is modelled by
  `round2` (round half-up to two decimal places); no input used below is
  a tie, where binary `toFixed` could differ from exact half-up.
* JavaScript runtime values are modelled by small inductive types that
  distinguish `undefined`, `null`, `NaN`, numbers and strings, because
  the source's `!== null`, `!== undefined` and truthiness checks
  distinguish them.
* Database rows are in-memory lists; `await`ed storage operations are
  modelled as pure state updates that succeed (the claims treated here
  all assume no storage failure aborts the loop).
* Host-platform functions that are not part of the repository (the
  `Date` parser behind `new Date(...)` and number-to-string conversion)
  are parameters of the embedding (`JsEnv`), so theorems either hold for
  every parser or instantiate an explicit concrete one.
-/

/-- Round half-up to 2 decimal places: the model of
`parseFloat(x.toFixed(2))` for the non-tie rationals used here. -/
def round2 (x : ℚ) : ℚ := (⌊x * 100 + 1 / 2⌋ : ℚ) / 100

/-- A JavaScript numeric-column value as it appears on a delivery row:
`undefined` (key absent), `null` (SQL NULL), a finite number, or `NaN`. -/
inductive JNum where
  | undefined
  | null
  | num (q : ℚ)
  | nan
deriving DecidableEq, Repr

namespace JNum

/-- `ToNumber` coercion used implicitly by JS arithmetic: `null` is 0,
`undefined` and `NaN` poison the result (modelled as `none`). -/
def toNumOpt : JNum → Option ℚ
  | .undefined => none
  | .null => some 0
  | .num q => some q
  | .nan => none

/-- JS `+` on two values (numeric contexts only). -/
def jsAdd (a b : JNum) : JNum :=
  match a.toNumOpt, b.toNumOpt with
  | some x, some y => .num (x + y)
  | _, _ => .nan

/-- JS `-` on two values. -/
def jsSub (a b : JNum) : JNum :=
  match a.toNumOpt, b.toNumOpt with
  | some x, some y => .num (x - y)
  | _, _ => .nan

/-- JS `*` on two values. -/
def jsMul (a b : JNum) : JNum :=
  match a.toNumOpt, b.toNumOpt with
  | some x, some y => .num (x * y)
  | _, _ => .nan

/-- `parseFloat(v.toFixed(2))`: rounds a number, keeps `NaN`
(`NaN.toFixed(2) = "NaN"`, `parseFloat("NaN") = NaN`).  Only ever
applied to results of JS arithmetic, which are numbers or `NaN`. -/
def round2Js : JNum → JNum
  | .num q => .num (round2 q)
  | _ => .nan

/-- JS falsiness of a numeric-column value: `undefined`, `null`, `NaN`
and `0` are falsy. -/
def jsFalsy : JNum → Prop
  | .undefined => True
  | .null => True
  | .nan => True
  | .num q => q = 0

instance (v : JNum) : Decidable v.jsFalsy :=
  match v with
  | .undefined => isTrue trivial
  | .null => isTrue trivial
  | .nan => isTrue trivial
  | .num q => inferInstanceAs (Decidable (q = 0))

end JNum

namespace RecomputeService

/-- The financial fields of a `deliveries` row as seen by
`RecomputeService.calculateFields`.  A row read from the database has
every field present (`null` or a number); a literal argument object may
omit keys (`undefined`). -/
structure Delivery where
  volume : JNum
  unit_price : JNum
  gross_value : JNum
  discount : JNum
  net_value : JNum
deriving DecidableEq, Repr

/-- The object `calculated` built up by `calculateFields`: keys start
absent (`undefined`) and are only ever assigned numbers or `NaN`. -/
structure Calculated where
  gross_value : JNum := .undefined
  net_value : JNum := .undefined
deriving DecidableEq, Repr

/-- Formula 1 of `calculateFields`:
`if (delivery.volume !== null && delivery.unit_price !== null)
  calculated.gross_value = parseFloat((volume * unit_price).toFixed(2))`. -/
def formula1 (d : Delivery) (c : Calculated) : Calculated :=
  if d.volume ≠ JNum.null ∧ d.unit_price ≠ JNum.null then
    { c with gross_value := (d.volume.jsMul d.unit_price).round2Js }
  else c

/-- Formula 2 of `calculateFields`:
`if (calculated.gross_value !== undefined && delivery.discount !== null) …
 else if (delivery.gross_value !== null && delivery.discount !== null) …`. -/
def formula2 (d : Delivery) (c : Calculated) : Calculated :=
  if c.gross_value ≠ JNum.undefined ∧ d.discount ≠ JNum.null then
    { c with net_value := (c.gross_value.jsSub d.discount).round2Js }
  else if d.gross_value ≠ JNum.null ∧ d.discount ≠ JNum.null then
    { c with net_value := (d.gross_value.jsSub d.discount).round2Js }
  else c

/-- Formula 3 of `calculateFields`:
`if (delivery.net_value !== null && delivery.discount !== null &&
     !calculated.gross_value)` — note the JS-falsy guard on the
calculated value, which is also satisfied by a computed `0`. -/
def formula3 (d : Delivery) (c : Calculated) : Calculated :=
  if d.net_value ≠ JNum.null ∧ d.discount ≠ JNum.null ∧ c.gross_value.jsFalsy then
    { c with gross_value := (d.net_value.jsAdd d.discount).round2Js }
  else c

/-- Formula 4 of `calculateFields`:
`if (delivery.gross_value !== null && delivery.discount !== null &&
     !calculated.net_value)` — same JS-falsy guard, on `net_value`. -/
def formula4 (d : Delivery) (c : Calculated) : Calculated :=
  if d.gross_value ≠ JNum.null ∧ d.discount ≠ JNum.null ∧ c.net_value.jsFalsy then
    { c with net_value := (d.gross_value.jsSub d.discount).round2Js }
  else c

/-- `RecomputeService.calculateFields`: the four formula statements run
in order on the initially-empty `calculated` object. -/
def calculateFields (d : Delivery) : Calculated :=
  formula4 d (formula3 d (formula2 d (formula1 d {})))

/-- The merge `{...delivery, ...updatedFields}` performed by
`recomputeDependentFields` (and, identically, by the database `update`):
a calculated key overrides the stored one only if it was assigned. -/
def mergeCalculated (d : Delivery) (c : Calculated) : Delivery :=
  { d with
    gross_value := if c.gross_value ≠ JNum.undefined then c.gross_value else d.gross_value,
    net_value := if c.net_value ≠ JNum.undefined then c.net_value else d.net_value }

/-- `RecomputeService.recomputeDependentFields`, restricted to its
effect on the delivery record itself (the audit-log write carries no
information consulted later). -/
def recomputeDependentFields (d : Delivery) : Delivery :=
  mergeCalculated d (calculateFields d)

/-- The record from the C1 analysis: a stored row with
`volume = 0`, `unit_price = 1`, `gross_value = NULL`, `discount = 1`,
`net_value = 5`. -/
def zeroGrossRow : Delivery :=
  { volume := .num 0, unit_price := .num 1, gross_value := .null,
    discount := .num 1, net_value := .num 5 }

/-- The worked example of the spec: `calculate({volume: 3.333,
unit_price: 2.222, discount: 1.111})` — the unmentioned keys are
absent, i.e. `undefined`. -/
def workedExampleRow : Delivery :=
  { volume := .num (3333 / 1000), unit_price := .num (2222 / 1000),
    gross_value := .undefined, discount := .num (1111 / 1000), net_value := .undefined }

end RecomputeService

/-- C1 (code_bug evaluation): on the stored row `zeroGrossRow`
(`volume = 0`, `unit_price = 1`, `gross_value = NULL`, `discount = 1`,
`net_value = 5`), `recomputeDependentFields` produces a record whose
`gross_value`, `discount` and `net_value` are all non-null, yet
`net_value = -1` while `round(gross_value - discount, 2) = 5`: the
documented invariant `net_value = round(gross_value - discount, 2)` is
violated, because formula 3 treats the computed `gross_value` of `0` as
falsy and recomputes it from `net_value + discount`. -/
theorem recompute_violates_net_invariant_at_zero_gross :
    (RecomputeService.recomputeDependentFields RecomputeService.zeroGrossRow).gross_value
        = JNum.num 6
    ∧ (RecomputeService.recomputeDependentFields RecomputeService.zeroGrossRow).discount
        = JNum.num 1
    ∧ (RecomputeService.recomputeDependentFields RecomputeService.zeroGrossRow).net_value
        = JNum.num (-1)
    ∧ round2 (6 - 1) = 5
    ∧ (-1 : ℚ) ≠ 5 := by
  have h1 : RecomputeService.formula1 RecomputeService.zeroGrossRow {}
      = { gross_value := JNum.num 0 } := by
    norm_num +decide [RecomputeService.formula1, RecomputeService.zeroGrossRow,
      JNum.jsMul, JNum.toNumOpt, JNum.round2Js, round2]
  have h2 : RecomputeService.formula2 RecomputeService.zeroGrossRow
        { gross_value := JNum.num 0 }
      = { gross_value := JNum.num 0, net_value := JNum.num (-1) } := by
    norm_num +decide [RecomputeService.formula2, RecomputeService.zeroGrossRow,
      JNum.jsSub, JNum.toNumOpt, JNum.round2Js, round2]
  have h3 : RecomputeService.formula3 RecomputeService.zeroGrossRow
        { gross_value := JNum.num 0, net_value := JNum.num (-1) }
      = { gross_value := JNum.num 6, net_value := JNum.num (-1) } := by
    norm_num +decide [RecomputeService.formula3, RecomputeService.zeroGrossRow,
      JNum.jsAdd, JNum.toNumOpt, JNum.round2Js, JNum.jsFalsy, round2]
  have h4 : RecomputeService.formula4 RecomputeService.zeroGrossRow
        { gross_value := JNum.num 6, net_value := JNum.num (-1) }
      = { gross_value := JNum.num 6, net_value := JNum.num (-1) } := by
    norm_num +decide [RecomputeService.formula4, RecomputeService.zeroGrossRow,
      JNum.jsFalsy]
  have hc : RecomputeService.calculateFields RecomputeService.zeroGrossRow
      = { gross_value := JNum.num 6, net_value := JNum.num (-1) } := by
    rw [RecomputeService.calculateFields, h1, h2, h3, h4]
  refine ⟨?_, ?_, ?_, by norm_num [round2], by norm_num⟩ <;>
    · simp only [RecomputeService.recomputeDependentFields,
        RecomputeService.mergeCalculated, hc]
      norm_num +decide [RecomputeService.zeroGrossRow]

/-- Helper evaluation: `calculateFields` on the spec's worked example
`{volume: 3.333, unit_price: 2.222, discount: 1.111}` yields
`gross_value = 7.41` (since `3.333 × 2.222 = 7.405926` rounds half-up
to `7.41`) and `net_value = 6.30` (since `7.41 − 1.111 = 6.299` rounds
half-up to `6.30`). -/
theorem calculateFields_workedExample_eq :
    RecomputeService.calculateFields RecomputeService.workedExampleRow
      = { gross_value := JNum.num (741 / 100), net_value := JNum.num (63 / 10) } := by
  have h1 : RecomputeService.formula1 RecomputeService.workedExampleRow {}
      = { gross_value := JNum.num (741 / 100) } := by
    norm_num +decide [RecomputeService.formula1, RecomputeService.workedExampleRow,
      JNum.jsMul, JNum.toNumOpt, JNum.round2Js, round2]
  have h2 : RecomputeService.formula2 RecomputeService.workedExampleRow
        { gross_value := JNum.num (741 / 100) }
      = { gross_value := JNum.num (741 / 100), net_value := JNum.num (63 / 10) } := by
    norm_num +decide [RecomputeService.formula2, RecomputeService.workedExampleRow,
      JNum.jsSub, JNum.toNumOpt, JNum.round2Js, round2]
  have h3 : RecomputeService.formula3 RecomputeService.workedExampleRow
        { gross_value := JNum.num (741 / 100), net_value := JNum.num (63 / 10) }
      = { gross_value := JNum.num (741 / 100), net_value := JNum.num (63 / 10) } := by
    norm_num +decide [RecomputeService.formula3, RecomputeService.workedExampleRow,
      JNum.jsFalsy]
  have h4 : RecomputeService.formula4 RecomputeService.workedExampleRow
        { gross_value := JNum.num (741 / 100), net_value := JNum.num (63 / 10) }
      = { gross_value := JNum.num (741 / 100), net_value := JNum.num (63 / 10) } := by
    norm_num +decide [RecomputeService.formula4, RecomputeService.workedExampleRow,
      JNum.jsFalsy]
  rw [RecomputeService.calculateFields, h1, h2, h3, h4]

/-- C6 (counterexample): `calculate({volume: 3.333, unit_price: 2.222,
discount: 1.111})` does *not* return `{gross_value: 7.40, net_value:
6.29}` — the claim's asserted output is false on the code. -/
theorem calculate_workedExample_not_740 :
    ¬ ((RecomputeService.calculateFields RecomputeService.workedExampleRow).gross_value
          = JNum.num (740 / 100)
        ∧ (RecomputeService.calculateFields RecomputeService.workedExampleRow).net_value
          = JNum.num (629 / 100)) := by
  rw [calculateFields_workedExample_eq]
  intro h
  have := h.1
  simp only [JNum.num.injEq] at this
  norm_num at this

/-- C6 (amended): `calculate({volume: 3.333, unit_price: 2.222,
discount: 1.111})` returns `{gross_value: 7.41, net_value: 6.30}`:
half-up rounding to 2 places sends `3.333 × 2.222 = 7.405926` to `7.41`
(not to the spec's `7.40`), and `7.41 − 1.111 = 6.299` to `6.30`. -/
theorem calculate_workedExample_returns_741_630 :
    (RecomputeService.calculateFields RecomputeService.workedExampleRow).gross_value
        = JNum.num (741 / 100)
    ∧ (RecomputeService.calculateFields RecomputeService.workedExampleRow).net_value
        = JNum.num (63 / 10)
    ∧ round2 ((3333 / 1000 : ℚ) * (2222 / 1000)) = 741 / 100
    ∧ round2 ((741 / 100 : ℚ) - 1111 / 1000) = 63 / 10 := by
  refine ⟨?_, ?_, by norm_num [round2], by norm_num [round2]⟩ <;>
    rw [calculateFields_workedExample_eq]

/-- A JavaScript runtime value as handled by the Excel import service:
raw cells from `sheet_to_json` (a missing cell is `undefined`), mapped
record fields, and conflict payload entries. -/
inductive JVal where
  | undefined
  | null
  | num (q : ℚ)
  | nan
  | str (s : String)
deriving DecidableEq, Repr

/-- JS truthiness: `undefined`, `null`, `NaN`, `0` and `""` are falsy. -/
def jsTruthy : JVal → Bool
  | .undefined => false
  | .null => false
  | .nan => false
  | .num q => if q = 0 then false else true
  | .str s => if s = "" then false else true

/-- The whitespace class used by the string helpers below (ASCII
whitespace; JS also strips rarer Unicode space characters, which no
input in this development contains). -/
def isJsSpace (c : Char) : Bool := c = ' ' ∨ c = '\t' ∨ c = '\n' ∨ c = '\r'

/-- Drop leading and trailing whitespace from a character list. -/
def trimChars (cs : List Char) : List Char :=
  ((cs.dropWhile isJsSpace).reverse.dropWhile isJsSpace).reverse

/-- `String.prototype.trim`. -/
def jsTrim (s : String) : String := String.mk (trimChars s.toList)

/-- `String.prototype.toLowerCase` (ASCII; identity on Arabic, as in JS). -/
def toLowerStr (s : String) : String := String.mk (s.toList.map Char.toLower)

/-- Substring test over character lists. -/
def containsChars (s sub : List Char) : Bool := s.tails.any (fun t => sub.isPrefixOf t)

/-- `String.prototype.includes`. -/
def strIncludes (s sub : String) : Bool := containsChars s.toList sub.toList

/-- Numeric value of a digit list, most significant first. -/
def digitsToNat (ds : List Char) : ℕ := ds.foldl (fun n c => n * 10 + (c.toNat - 48)) 0

/-- Parse a leading decimal literal `[+-]digits[.digits][(e|E)[+-]digits]`
from a character list, returning its value and the unconsumed rest.
This is the decimal fragment of the JS number grammar; hex/octal/binary
and `Infinity` literals are not modelled (no input below uses them). -/
def parseDecimal (cs : List Char) : Option (ℚ × List Char) :=
  let sgn : ℚ := match cs with
    | '-' :: _ => -1
    | _ => 1
  let cs1 : List Char := match cs with
    | '+' :: t => t
    | '-' :: t => t
    | _ => cs
  let ip := cs1.takeWhile Char.isDigit
  let cs2 := cs1.dropWhile Char.isDigit
  let fp : List Char := match cs2 with
    | '.' :: t => t.takeWhile Char.isDigit
    | _ => []
  let cs3 : List Char := match cs2 with
    | '.' :: t => t.dropWhile Char.isDigit
    | _ => cs2
  if ip.isEmpty ∧ fp.isEmpty then none
  else
    let mant : ℚ := (digitsToNat ip : ℚ) + (digitsToNat fp : ℚ) / (10 : ℚ) ^ fp.length
    let exPart : ℤ × List Char := match cs3 with
      | c :: t =>
        if c = 'e' ∨ c = 'E' then
          let es : ℤ := match t with
            | '-' :: _ => -1
            | _ => 1
          let t1 : List Char := match t with
            | '+' :: u => u
            | '-' :: u => u
            | _ => t
          let ed := t1.takeWhile Char.isDigit
          if ed.isEmpty then (0, cs3) else (es * (digitsToNat ed : ℤ), t1.dropWhile Char.isDigit)
        else (0, cs3)
      | [] => (0, cs3)
    some (sgn * mant * (10 : ℚ) ^ exPart.1, exPart.2)

/-- `parseFloat(s)`: skip leading whitespace, parse the longest decimal
prefix, ignore the rest; `none` models `NaN`. -/
def jsParseFloat (s : String) : Option ℚ :=
  match parseDecimal (s.toList.dropWhile isJsSpace) with
  | some (q, _) => some q
  | none => none

/-- `Number(s)` string coercion: trimmed empty string is `0`; otherwise
the whole trimmed string must be one decimal literal; `none` models
`NaN`. -/
def jsStrToNumber (s : String) : Option ℚ :=
  match trimChars s.toList with
  | [] => some 0
  | cs =>
    match parseDecimal cs with
    | some (q, []) => some q
    | _ => none

/-- `ExcelImportService.isNumeric`:
`!isNaN(value) && !isNaN(parseFloat(value))` — note it coerces the *raw*
string; no currency/comma stripping happens here. -/
def isNumeric (s : String) : Bool := (jsStrToNumber s).isSome && (jsParseFloat s).isSome

/-- The regex replace `value.replace(/[^\d.-]/g, '')` of
`normalizeNumber`: keep only digits, `.` and `-`. -/
def stripNonNumeric (s : String) : String :=
  String.mk (s.toList.filter (fun c => c.isDigit ∨ c = '.' ∨ c = '-'))

/-- The string body of `ExcelImportService.normalizeNumber`:
`parseFloat(value.replace(/[^\d.-]/g, ''))`, which can produce `NaN`. -/
def normalizeNumberStr (s : String) : JVal :=
  match jsParseFloat (stripNonNumeric s) with
  | some q => .num q
  | none => .nan

/-- Host-platform functions used by the service but not defined in the
repository: the flexible date parser behind `new Date(...)` and number
formatting via `toString`.  `dateParse s = some d` models `new Date(s)`
being a valid date whose `toISOString().split('T')[0]` is `d`;
`numToIso q` models `new Date(q)` for a numeric argument; `numToString`
models `Number.prototype.toString`. -/
structure JsEnv where
  dateParse : String → Option String
  numToIso : ℚ → Option String
  numToString : ℚ → String

/-- `String(value)` for the values that reach `normalizeValue`'s
stringification. -/
def jsToString (env : JsEnv) : JVal → String
  | .undefined => "undefined"
  | .null => "null"
  | .num q => env.numToString q
  | .nan => "NaN"
  | .str s => s

/-- `ExcelImportService.isDate`:
`!isNaN(new Date(value).getTime()) && value.length > 0`. -/
def isDate (env : JsEnv) (value : String) : Bool :=
  (env.dateParse value).isSome && decide (value.length > 0)

/-- `ExcelImportService.normalizeDate` on a raw value:
`new Date(value).toISOString().split('T')[0]`.  `toISOString` throws a
`RangeError` on an invalid date; `new Date(undefined)` and
`new Date(NaN)` are always invalid, `new Date(null)` is the epoch. -/
def normalizeDate (env : JsEnv) : JVal → Except String String
  | .undefined => .error "Invalid time value"
  | .nan => .error "Invalid time value"
  | .null => .ok "1970-01-01"
  | .num q =>
    match env.numToIso q with
    | some iso => .ok iso
    | none => .error "Invalid time value"
  | .str s =>
    match env.dateParse s with
    | some iso => .ok iso
    | none => .error "Invalid time value"

/-- `ExcelImportService.normalizeNumber` on a raw value: calling
`.replace` on `undefined`/`null` or on a number throws a `TypeError`;
only strings reach `parseFloat`. -/
def normalizeNumber : JVal → Except String JVal
  | .str s => .ok (normalizeNumberStr s)
  | .undefined => .error "Cannot read properties of undefined"
  | .null => .error "Cannot read properties of null"
  | _ => .error "value.replace is not a function"

/-- `ExcelImportService.normalizeText` on a raw value: `value.trim()`
throws a `TypeError` unless the value is a string. -/
def normalizeText : JVal → Except String String
  | .str s => .ok (jsTrim s)
  | .undefined => .error "Cannot read properties of undefined"
  | .null => .error "Cannot read properties of null"
  | _ => .error "value.trim is not a function"

/-- `ExcelImportService.normalizeValue`: `null`/`undefined`/`''` map to
`null`; otherwise the stringified, trimmed value goes through the date
check, then the numeric check, then falls back to trimmed text.  The
function is total: no branch can throw (`normalizeDate` is only entered
under the `isDate` guard). -/
def normalizeValue (env : JsEnv) (value : JVal) : JVal :=
  if value = JVal.null ∨ value = JVal.undefined ∨ value = JVal.str "" then .null
  else
    let strValue := jsTrim (jsToString env value)
    if isDate env strValue then
      -- guarded by `isDate`, so the parse succeeded; the default is unreachable
      .str ((env.dateParse strValue).getD strValue)
    else if isNumeric strValue then
      normalizeNumberStr strValue
    else
      .str strValue

/-- The suggestion object returned by
`ExcelImportService.suggestFieldMapping`. -/
structure Suggestion where
  field : String
  type : String
  transform : String
  required : Bool
  notes : String
deriving DecidableEq, Repr

/-- `ExcelImportService.suggestFieldMapping`: first-match-wins keyword
scan over the lowercased header (bilingual keyword sets), with an
unnamed-column default for falsy headers. -/
def suggestFieldMapping (env : JsEnv) (header : JVal) : Suggestion :=
  if jsTruthy header = false then
    ⟨"unknown", "text", "none", false, "Unnamed column"⟩
  else
    let hl := toLowerStr (jsToString env header)
    if strIncludes hl "date" ∨ strIncludes hl "تاريخ" then
      ⟨"date", "date", "iso_date", true, "Date field"⟩
    else if strIncludes hl "volume" ∨ strIncludes hl "كمية" ∨ strIncludes hl "حجم" then
      ⟨"volume", "decimal", "numeric", false, "Volume/quantity field"⟩
    else if strIncludes hl "price" ∨ strIncludes hl "سعر" ∨ strIncludes hl "تكلفة" then
      ⟨"unit_price", "decimal", "currency", false, "Unit price field"⟩
    else if strIncludes hl "value" ∨ strIncludes hl "قيمة" ∨ strIncludes hl "مبلغ" then
      if strIncludes hl "gross" ∨ strIncludes hl "إجمالي" then
        ⟨"gross_value", "decimal", "currency", false, "Gross value field"⟩
      else if strIncludes hl "net" ∨ strIncludes hl "صافي" then
        ⟨"net_value", "decimal", "currency", false, "Net value field"⟩
      else
        ⟨"gross_value", "decimal", "currency", false, "Value field"⟩
    else if strIncludes hl "discount" ∨ strIncludes hl "خصم" ∨ strIncludes hl "تخفيض" then
      ⟨"discount", "decimal", "currency", false, "Discount field"⟩
    else if strIncludes hl "description" ∨ strIncludes hl "وصف" ∨ strIncludes hl "تفاصيل" then
      ⟨"item_description", "text", "trim", false, "Item description field"⟩
    else if strIncludes hl "voucher" ∨ strIncludes hl "قسيمة" ∨ strIncludes hl "رقم" then
      ⟨"company_voucher_no", "text", "trim", false, "Voucher number field"⟩
    else if strIncludes hl "vehicle" ∨ strIncludes hl "مركبة" ∨ strIncludes hl "سيارة" then
      ⟨"vehicle_no", "text", "trim", false, "Vehicle number field"⟩
    else
      ⟨"unknown", "text", "none", false, "Unmapped column"⟩

/-- A column entry of the analysis result / the confirmed mapping (the
route's `importSchema` validates exactly these fields). -/
structure ColumnMapping where
  excel_column : String
  suggested_field : String
  field_type : String
  transform_rule : String
  required : Bool
  notes : String
deriving DecidableEq, Repr

/-- A preview row: 1-based spreadsheet row number plus the normalized
cells keyed by header label. -/
structure PreviewRow where
  row_index : ℕ
  data : List (String × JVal)
deriving DecidableEq, Repr

/-- The per-sheet analysis object returned by
`ExcelImportService.analyzeSheet`.  `headerRowIndex` is `none` for the
empty-sheet early return, which omits the key. -/
structure SheetAnalysis where
  name : String
  rows : ℕ
  columns : List ColumnMapping
  preview : List PreviewRow
  hasData : Bool
  headerRowIndex : Option ℕ
deriving DecidableEq, Repr

/-- `row.some(cell => cell !== null && cell !== undefined && cell !== '')`. -/
def rowNonEmpty (row : List JVal) : Bool :=
  row.any (fun cell => cell ≠ JVal.null ∧ cell ≠ JVal.undefined ∧ cell ≠ JVal.str "")

/-- The header-detection loop: index of the first non-empty row, `none`
if every row is empty (the JS loop then leaves its initial `0`). -/
def detectHeaderAux : List (List JVal) → Option ℕ
  | [] => none
  | r :: rs => if rowNonEmpty r then some 0 else (detectHeaderAux rs).map (· + 1)

/-- `header || 'Column_' + (index + 1)`. -/
def colName (env : JsEnv) (header : JVal) (index : ℕ) : String :=
  if jsTruthy header then jsToString env header else "Column_" ++ toString (index + 1)

/-- `List.map` with the element index passed to the function, starting
from a given index. -/
def mapIdxFrom (f : ℕ → α → β) : ℕ → List α → List β
  | _, [] => []
  | i, a :: as => f i a :: mapIdxFrom f (i + 1) as

/-- `ExcelImportService.analyzeSheet` on the `sheet_to_json(worksheet,
{header: 1})` output (`jsonData`, a list of rows of raw cells — the
spreadsheet-reading library is an external collaborator per spec §6). -/
def analyzeSheet (env : JsEnv) (jsonData : List (List JVal)) (sheetName : String) :
    SheetAnalysis :=
  if jsonData.length = 0 then
    { name := sheetName, rows := 0, columns := [], preview := [], hasData := false,
      headerRowIndex := none }
  else
    let headerRowIndex := (detectHeaderAux jsonData).getD 0
    let headers := jsonData.getD headerRowIndex []
    let dataRows := jsonData.drop (headerRowIndex + 1)
    let columns := mapIdxFrom (fun i header =>
      let s := suggestFieldMapping env header
      { excel_column := colName env header i, suggested_field := s.field,
        field_type := s.type, transform_rule := s.transform,
        required := s.required, notes := s.notes }) 0 headers
    let preview := mapIdxFrom (fun i row =>
      { row_index := headerRowIndex + i + 2,
        data := mapIdxFrom (fun ci header =>
          (colName env header ci, normalizeValue env (row.getD ci JVal.undefined))) 0 headers })
      0 (dataRows.take 10)
    { name := sheetName, rows := dataRows.length, columns := columns, preview := preview,
      hasData := decide (dataRows.length > 0), headerRowIndex := some (headerRowIndex + 1) }

/-- The `mappedData` object: an insertion-ordered association list of
field name to value; a missing key reads as `undefined`. -/
abbrev MappedData : Type := List (String × JVal)

/-- JS property assignment `data[k] = v` (overwrite or append). -/
def setField (d : MappedData) (k : String) (v : JVal) : MappedData :=
  if d.any (fun p => p.1 = k) then
    d.map (fun p => if p.1 = k then (k, v) else p)
  else
    d ++ [(k, v)]

/-- JS property read `data[k]` (`undefined` when absent). -/
def getField (d : MappedData) (k : String) : JVal :=
  match d.find? (fun p => p.1 = k) with
  | some p => p.2
  | none => .undefined

/-- `ExcelImportService.applyTransform`: dispatch on the transform-rule
string; unrecognized rules pass the raw value through. -/
def applyTransform (env : JsEnv) (value : JVal) (transform : String) : Except String JVal :=
  match transform with
  | "iso_date" => (normalizeDate env value).map JVal.str
  | "numeric" => normalizeNumber value
  | "currency" => normalizeNumber value
  | "trim" => (normalizeText value).map JVal.str
  | _ => .ok value

/-- The confirmed mapping configuration the route passes to
`importData` (validated by `importSchema`: `headerRowIndex ≥ 1`). -/
structure ImportMapping where
  sheetName : String
  headerRowIndex : ℕ
  columns : List ColumnMapping
deriving DecidableEq, Repr

/-- Loop body of `ExcelImportService.mapRowData`: walk the mapping's
columns with their index, skipping `"unknown"` columns, transforming the
cell at that index.  The first transform exception aborts the whole
row, as in JS. -/
def mapRowDataAux (env : JsEnv) (row : List JVal) :
    List ColumnMapping → ℕ → MappedData → Except String MappedData
  | [], _, acc => .ok acc
  | col :: cols, i, acc =>
    if col.suggested_field ≠ "unknown" then
      match applyTransform env (row.getD i JVal.undefined) col.transform_rule with
      | .error e => .error e
      | .ok v => mapRowDataAux env row cols (i + 1) (setField acc col.suggested_field v)
    else
      mapRowDataAux env row cols (i + 1) acc

/-- `ExcelImportService.mapRowData`. -/
def mapRowData (env : JsEnv) (row : List JVal) (m : ImportMapping) (rowIndex : ℕ) :
    Except String MappedData :=
  mapRowDataAux env row m.columns 0
    [("source_sheet", JVal.str m.sheetName), ("original_row_index", JVal.num rowIndex)]

/-- `ExcelImportService.validateRequiredFields`: every required column's
target field must hold a value that is not `null`, `undefined` or `''`. -/
def validateRequiredFields (data : MappedData) (m : ImportMapping) : Bool :=
  (m.columns.filter (fun col => col.required)).all (fun col =>
    getField data col.suggested_field ≠ JVal.null
      ∧ getField data col.suggested_field ≠ JVal.undefined
      ∧ getField data col.suggested_field ≠ JVal.str "")

/-- A persisted `deliveries` row, restricted to the columns the import
loop reads back: the natural dedup key and the soft-delete marker.
(The inserted financial fields are recomputed by `RecomputeService`,
modelled separately above; no later import step reads them.) -/
structure DeliveryRow where
  company_voucher_no : JVal
  deleted : Bool
deriving DecidableEq, Repr

/-- `ExcelImportService.isDuplicate`: falsy voucher short-circuits to
`false`; otherwise `db('deliveries').where('company_voucher_no', v)`,
with *no* filter on the soft-delete column. -/
def isDuplicate (store : List DeliveryRow) (data : MappedData) : Bool :=
  if jsTruthy (getField data "company_voucher_no") = false then false
  else
    (store.find? (fun r => r.company_voucher_no = getField data "company_voucher_no")).isSome

/-- `ExcelImportService.insertDelivery`: the new row as later duplicate
checks see it (freshly inserted, so not soft-deleted). -/
def insertDelivery (data : MappedData) : DeliveryRow :=
  { company_voucher_no := getField data "company_voucher_no", deleted := false }

/-- One `import_conflicts` row as written by `recordConflict`. -/
structure ConflictRow where
  delivery_row : ℕ
  reason : String
  details : String
deriving DecidableEq, Repr

/-- The counters object of `processDataRows`. -/
structure ImportResults where
  total : ℕ
  imported : ℕ
  conflicts : ℕ
  errors : ℕ
deriving DecidableEq, Repr

/-- The mutable state of the row loop: counters, the deliveries table,
and the conflicts written so far. -/
structure ProcState where
  results : ImportResults
  deliveries : List DeliveryRow
  conflicts : List ConflictRow
deriving DecidableEq, Repr

/-- One iteration of the `processDataRows` loop.  The conflict branches
end in `continue`, which skips the `results.total++` at the bottom of
the loop body, so conflict rows are not counted in `total`; the caught
exception path and the successful import path do reach `total++`. -/
def stepRow (env : JsEnv) (m : ImportMapping) (rowIndex : ℕ) (st : ProcState)
    (row : List JVal) : ProcState :=
  match mapRowData env row m rowIndex with
  | .error msg =>
    { st with
      results := { st.results with
                   errors := st.results.errors + 1
                   total := st.results.total + 1 },
      conflicts := st.conflicts ++ [⟨rowIndex, "invalid_data", msg⟩] }
  | .ok data =>
    if !(validateRequiredFields data m) then
      { st with
        results := { st.results with conflicts := st.results.conflicts + 1 },
        conflicts := st.conflicts ++ [⟨rowIndex, "missing_required", "Required fields missing"⟩] }
    else if isDuplicate st.deliveries data then
      { st with
        results := { st.results with conflicts := st.results.conflicts + 1 },
        conflicts := st.conflicts ++ [⟨rowIndex, "duplicate_voucher", "Duplicate voucher number"⟩] }
    else
      { st with
        results := { st.results with
                     imported := st.results.imported + 1
                     total := st.results.total + 1 },
        deliveries := st.deliveries ++ [insertDelivery data] }

/-- The row loop of `processDataRows`, threading the Excel row number
`headerRowIndex + i + 2`. -/
def processRowsAux (env : JsEnv) (m : ImportMapping) :
    List (List JVal) → ℕ → ProcState → ProcState
  | [], _, st => st
  | row :: rest, rowIndex, st =>
    processRowsAux env m rest (rowIndex + 1) (stepRow env m rowIndex st row)

/-- `ExcelImportService.processDataRows` over a sheet's `jsonData`,
starting from the persisted deliveries `store`:
`headerRowIndex = mapping.headerRowIndex - 1;
 dataRows = jsonData.slice(headerRowIndex + 1)`, first Excel row number
`headerRowIndex + 0 + 2`. -/
def processDataRows (env : JsEnv) (jsonData : List (List JVal)) (m : ImportMapping)
    (store : List DeliveryRow) : ProcState :=
  processRowsAux env m (jsonData.drop ((m.headerRowIndex - 1) + 1))
    ((m.headerRowIndex - 1) + 2) ⟨⟨0, 0, 0, 0⟩, store, []⟩

/-- The `import_batches` row after `importData` finishes: created as
`processing`, then `updateImportBatch(batchId, 'completed', results)`
writes the terminal status and counters whenever `processDataRows`
resolves. -/
structure ImportBatchRec where
  status : String
  total_rows : ℕ
  imported_rows : ℕ
  conflict_rows : ℕ
deriving DecidableEq, Repr

/-- `ExcelImportService.importData` (no storage failure aborts the run):
process the data rows, then mark the batch `completed` with the
counters. -/
def importData (env : JsEnv) (jsonData : List (List JVal)) (m : ImportMapping)
    (store : List DeliveryRow) : ImportBatchRec × ProcState :=
  let st := processDataRows env jsonData m store
  ({ status := "completed", total_rows := st.results.total,
     imported_rows := st.results.imported, conflict_rows := st.results.conflicts }, st)

/-- An `import_conflicts` row as the resolve route reads and writes it:
`status ∈ {"pending", "resolved", "ignored"}` per migration 007. -/
structure ImportConflictRec where
  id : ℕ
  status : String
  resolved_by : Option ℕ
deriving DecidableEq, Repr

/-- The store touched by `PUT /api/import/conflicts/:id/resolve`. -/
structure ResolveStore where
  conflicts : List ImportConflictRec
  deliveries : List DeliveryRow
deriving DecidableEq, Repr

/-- The route's response: `404 Conflict not found` or the
`Conflict resolved successfully` payload. -/
inductive ResolveResponse where
  | notFound
  | resolved
deriving DecidableEq, Repr

/-- `PUT /api/import/conflicts/:id/resolve`: load the conflict (404 only
when absent — the handler never looks at the current status), then
unconditionally update `status = 'resolved'` with resolver and
timestamp, then for `action === 'import' && resolution_data` insert the
resolution data as a delivery (and recompute its dependent fields —
the recompute touches only the new row's financial columns, which this
store does not read back). -/
def resolveConflict (st : ResolveStore) (cid : ℕ) (action : String)
    (resolution_data : Option MappedData) (uid : ℕ) : ResolveResponse × ResolveStore :=
  match st.conflicts.find? (fun c => c.id == cid) with
  | none => (.notFound, st)
  | some _ =>
    let conflicts1 := st.conflicts.map (fun c =>
      if c.id == cid then { c with status := "resolved", resolved_by := some uid } else c)
    let st1 : ResolveStore := { st with conflicts := conflicts1 }
    let st2 : ResolveStore :=
      if action = "import" then
        match resolution_data with
        | some rdata => { st1 with deliveries := st1.deliveries ++ [insertDelivery rdata] }
        | none => st1
      else st1
    (.resolved, st2)

/-- The bookkeeping relation that the row loop maintains: `total` counts
exactly the imported and errored rows (conflict branches `continue` past
`total++`), the non-`invalid_data` conflict rows are counted by the
`conflicts` counter, and the `invalid_data` ones by `errors`. -/
def countersInvariant (st : ProcState) : Prop :=
  st.results.total = st.results.imported + st.results.errors
  ∧ (st.conflicts.filter (fun c => !(c.reason == "invalid_data"))).length = st.results.conflicts
  ∧ (st.conflicts.filter (fun c => c.reason == "invalid_data")).length = st.results.errors

theorem stepRow_countersInvariant (env : JsEnv) (m : ImportMapping) (rowIndex : ℕ)
    (st : ProcState) (row : List JVal) (h : countersInvariant st) :
    countersInvariant (stepRow env m rowIndex st row) := by
  obtain ⟨h1, h2, h3⟩ := h
  unfold stepRow
  cases hm : mapRowData env row m rowIndex with
  | error msg =>
    refine ⟨by simp [h1]; omega, ?_, ?_⟩ <;>
      simp +decide [List.filter_append, h2, h3]
  | ok data =>
    by_cases hv : validateRequiredFields data m
    · by_cases hd : isDuplicate st.deliveries data
      · refine ⟨by simp [hv, hd, h1], ?_, ?_⟩ <;>
          simp +decide [hv, hd, List.filter_append, h2, h3]
      · refine ⟨by simp [hv, hd, h1]; omega, ?_, ?_⟩ <;>
          simp [hv, hd, h2, h3]
    · refine ⟨by simp [hv, h1], ?_, ?_⟩ <;>
        simp +decide [hv, List.filter_append, h2, h3]

theorem stepRow_total_conflicts (env : JsEnv) (m : ImportMapping) (rowIndex : ℕ)
    (st : ProcState) (row : List JVal) :
    (stepRow env m rowIndex st row).results.total
        + (stepRow env m rowIndex st row).results.conflicts
      = st.results.total + st.results.conflicts + 1 := by
  unfold stepRow
  cases hm : mapRowData env row m rowIndex with
  | error msg => simp; omega
  | ok data =>
    by_cases hv : validateRequiredFields data m
    · by_cases hd : isDuplicate st.deliveries data
      · simp [hv, hd]; omega
      · simp [hv, hd]; omega
    · simp [hv]; omega

theorem processRowsAux_countersInvariant (env : JsEnv) (m : ImportMapping)
    (rows : List (List JVal)) :
    ∀ (i : ℕ) (st : ProcState), countersInvariant st →
      countersInvariant (processRowsAux env m rows i st) := by
  induction rows with
  | nil => intro i st h; exact h
  | cons row rest ih =>
    intro i st h
    exact ih (i + 1) _ (stepRow_countersInvariant env m i st row h)

theorem processRowsAux_total_conflicts (env : JsEnv) (m : ImportMapping)
    (rows : List (List JVal)) :
    ∀ (i : ℕ) (st : ProcState),
      (processRowsAux env m rows i st).results.total
          + (processRowsAux env m rows i st).results.conflicts
        = st.results.total + st.results.conflicts + rows.length := by
  induction rows with
  | nil => intro i st; simp [processRowsAux]
  | cons row rest ih =>
    intro i st
    have := ih (i + 1) (stepRow env m i st row)
    have hs := stepRow_total_conflicts env m i st row
    simp only [processRowsAux, List.length_cons]
    omega

/-- A concrete `JsEnv` whose date parser accepts no string and no
numeric timestamp.  Every string it is applied to below (`"$1,000"`,
`"abc"`, voucher codes) is indeed rejected by the JS `Date` parser. -/
def plainEnv : JsEnv :=
  { dateParse := fun _ => none, numToIso := fun _ => none, numToString := fun _ => "" }

/-- A confirmed mapping with a single required `date` column whose
transform rule is the passthrough default (`'none'`), header on
spreadsheet row 1. -/
def requiredDateMapping : ImportMapping :=
  { sheetName := "Sheet1", headerRowIndex := 1,
    columns := [⟨"Date", "date", "date", "none", true, "Date field"⟩] }

/-- A sheet whose row 2 is blank: a header row then an empty data row. -/
def blankRowSheet : List (List JVal) := [[JVal.str "Date"], []]

/-- C2 (counterexample): importing `blankRowSheet` under
`requiredDateMapping` records row 2 as a `missing_required` conflict,
but the batch counters are `{total: 0, imported: 0, conflicts: 1,
errors: 0}` — the conflict row is *not* counted in `total`, because the
conflict branch's `continue` skips the `results.total++` at the bottom
of the loop. -/
theorem conflict_row_missing_from_total :
    (processDataRows plainEnv blankRowSheet requiredDateMapping []).results
        = ⟨0, 0, 1, 0⟩
    ∧ (processDataRows plainEnv blankRowSheet requiredDateMapping []).conflicts
        = [⟨2, "missing_required", "Required fields missing"⟩]
    ∧ (0 : ℕ) ≠ 1 := by
  refine ⟨by decide, by decide, by decide⟩

/-- C2 (amended): in every run of `processDataRows`, `total` counts
exactly the imported and errored rows; rows rejected as conflicts
(reasons `missing_required` / `duplicate_voucher`, the only reasons the
`conflicts` counter counts) increment `conflicts` but not `total` and
not `errors`, and `imported` excludes them; every data row after the
header lands in exactly one of the three groups, so
`total + conflicts = number of data rows`. -/
theorem processDataRows_counter_partition (env : JsEnv) (jsonData : List (List JVal))
    (m : ImportMapping) (store : List DeliveryRow) :
    (processDataRows env jsonData m store).results.total
        = (processDataRows env jsonData m store).results.imported
          + (processDataRows env jsonData m store).results.errors
    ∧ (processDataRows env jsonData m store).results.total
          + (processDataRows env jsonData m store).results.conflicts
        = (jsonData.drop ((m.headerRowIndex - 1) + 1)).length
    ∧ ((processDataRows env jsonData m store).conflicts.filter
          (fun c => !(c.reason == "invalid_data"))).length
        = (processDataRows env jsonData m store).results.conflicts
    ∧ ((processDataRows env jsonData m store).conflicts.filter
          (fun c => c.reason == "invalid_data")).length
        = (processDataRows env jsonData m store).results.errors := by
  have hinv : countersInvariant (processDataRows env jsonData m store) := by
    apply processRowsAux_countersInvariant
    exact ⟨rfl, rfl, rfl⟩
  have htot := processRowsAux_total_conflicts env m
    (jsonData.drop ((m.headerRowIndex - 1) + 1)) ((m.headerRowIndex - 1) + 2)
    ⟨⟨0, 0, 0, 0⟩, store, []⟩
  exact ⟨hinv.1, by simpa [processDataRows] using htot, hinv.2.1, hinv.2.2⟩

/-- C3 (counterexample): a batch whose single data row becomes a
conflict is marked `completed` with `imported_rows = 0`, but
`conflict_rows = 1 ≠ 0 = total_rows`: the claimed `conflicts == total`
fails because conflict rows are skipped by the `total` counter. -/
theorem all_conflict_batch_total_mismatch :
    (importData plainEnv blankRowSheet requiredDateMapping []).1
        = ⟨"completed", 0, 0, 1⟩
    ∧ (importData plainEnv blankRowSheet requiredDateMapping []).1.conflict_rows
        ≠ (importData plainEnv blankRowSheet requiredDateMapping []).1.total_rows := by
  refine ⟨by decide, by decide⟩

/-- C3 (amended): a batch in which every data row is rejected as a
conflict (no row imported, no row hitting the per-row exception path)
reaches terminal status `completed` — not `failed` — with
`imported_rows = 0` and `conflict_rows` equal to the number of data
rows; the stored `total_rows` however is `0`, since the conflict
branches skip the `total` counter. -/
theorem all_conflict_batch_completed (env : JsEnv) (jsonData : List (List JVal))
    (m : ImportMapping) (store : List DeliveryRow)
    (himp : (processDataRows env jsonData m store).results.imported = 0)
    (herr : (processDataRows env jsonData m store).results.errors = 0) :
    (importData env jsonData m store).1.status = "completed"
    ∧ (importData env jsonData m store).1.imported_rows = 0
    ∧ (importData env jsonData m store).1.total_rows = 0
    ∧ (importData env jsonData m store).1.conflict_rows
        = (jsonData.drop ((m.headerRowIndex - 1) + 1)).length := by
  have hinv : countersInvariant (processDataRows env jsonData m store) := by
    apply processRowsAux_countersInvariant
    exact ⟨rfl, rfl, rfl⟩
  have htot := processRowsAux_total_conflicts env m
    (jsonData.drop ((m.headerRowIndex - 1) + 1)) ((m.headerRowIndex - 1) + 2)
    ⟨⟨0, 0, 0, 0⟩, store, []⟩
  have h0 : (processDataRows env jsonData m store).results.total = 0 := by
    have := hinv.1
    omega
  refine ⟨rfl, himp, h0, ?_⟩
  have : (processDataRows env jsonData m store).results.total
      + (processDataRows env jsonData m store).results.conflicts
      = (jsonData.drop ((m.headerRowIndex - 1) + 1)).length := by
    simpa [processDataRows] using htot
  simpa [importData, h0] using this

/-- C3 (witness): the amended theorem applied to the concrete
all-conflict batch `blankRowSheet`. -/
theorem all_conflict_batch_completed_witness :
    (importData plainEnv blankRowSheet requiredDateMapping []).1.status = "completed"
    ∧ (importData plainEnv blankRowSheet requiredDateMapping []).1.imported_rows = 0
    ∧ (importData plainEnv blankRowSheet requiredDateMapping []).1.total_rows = 0
    ∧ (importData plainEnv blankRowSheet requiredDateMapping []).1.conflict_rows
        = (blankRowSheet.drop ((requiredDateMapping.headerRowIndex - 1) + 1)).length :=
  all_conflict_batch_completed plainEnv blankRowSheet requiredDateMapping []
    (by decide) (by decide)

/-- Like `requiredDateMapping` but with the inferencer's actual
transform rule for date columns, `iso_date`. -/
def requiredIsoDateMapping : ImportMapping :=
  { sheetName := "Sheet1", headerRowIndex := 1,
    columns := [⟨"Date", "date", "date", "iso_date", true, "Date field"⟩] }

/-- An empty initial loop state. -/
def procState0 : ProcState := ⟨⟨0, 0, 0, 0⟩, [], []⟩

/-- C4 (counterexample): a blank cell in a required `iso_date` column is
recorded with reason `invalid_data` (counted in `errors`), not
`missing_required`: `normalizeDate(undefined)` throws before the
required-field check can run. -/
theorem blank_required_iso_date_gives_invalid_data :
    (processDataRows plainEnv blankRowSheet requiredIsoDateMapping []).conflicts
        = [⟨2, "invalid_data", "Invalid time value"⟩]
    ∧ (processDataRows plainEnv blankRowSheet requiredIsoDateMapping []).results
        = ⟨1, 0, 0, 1⟩
    ∧ "invalid_data" ≠ "missing_required" := by
  refine ⟨by decide, by decide, by decide⟩

/-- C4 (amended): for every mapping whose single mapped column is
required with transform rule `iso_date`, `numeric`, `currency` or
`trim`, a blank (undefined) cell makes the transform throw, so the row
is recorded as exactly one conflict with reason `invalid_data` and
counted in `errors` (not in `conflicts`, not in `total`); `imported` is
unchanged and the loop continues with the subsequent rows from the
updated state.  (`missing_required` is only reachable when the
transform returns a null/empty value without throwing, e.g. under the
passthrough default rule.) -/
theorem blank_required_cell_transform_throws (env : JsEnv) (m : ImportMapping)
    (col : ColumnMapping) (st : ProcState) (idx : ℕ) (rest : List (List JVal))
    (t : String) (hcols : m.columns = [col]) (hfield : col.suggested_field ≠ "unknown")
    (ht : col.transform_rule = t)
    (hmem : t ∈ (["iso_date", "numeric", "currency", "trim"] : List String)) :
    (∃ msg, mapRowData env [] m idx = Except.error msg)
    ∧ (stepRow env m idx st []).results.errors = st.results.errors + 1
    ∧ (stepRow env m idx st []).results.conflicts = st.results.conflicts
    ∧ (stepRow env m idx st []).results.imported = st.results.imported
    ∧ (stepRow env m idx st []).conflicts.map (fun c => c.reason)
        = st.conflicts.map (fun c => c.reason) ++ ["invalid_data"]
    ∧ processRowsAux env m ([] :: rest) idx st
        = processRowsAux env m rest (idx + 1) (stepRow env m idx st []) := by
  have hmap : ∃ msg, mapRowData env [] m idx = Except.error msg := by
    fin_cases hmem
    · exact ⟨"Invalid time value", by
        simp [mapRowData, hcols, mapRowDataAux, hfield, ht, applyTransform,
          normalizeDate, Except.map]⟩
    · exact ⟨"Cannot read properties of undefined", by
        simp [mapRowData, hcols, mapRowDataAux, hfield, ht, applyTransform,
          normalizeNumber]⟩
    · exact ⟨"Cannot read properties of undefined", by
        simp [mapRowData, hcols, mapRowDataAux, hfield, ht, applyTransform,
          normalizeNumber]⟩
    · exact ⟨"Cannot read properties of undefined", by
        simp [mapRowData, hcols, mapRowDataAux, hfield, ht, applyTransform,
          normalizeText, Except.map]⟩
  obtain ⟨msg, hmsg⟩ := hmap
  refine ⟨⟨msg, hmsg⟩, ?_, ?_, ?_, ?_, rfl⟩ <;> simp [stepRow, hmsg]

/-- C4 (witness): the amended theorem at the concrete blank row of
`requiredIsoDateMapping`. -/
theorem blank_required_cell_transform_throws_witness :
    (∃ msg, mapRowData plainEnv [] requiredIsoDateMapping 2 = Except.error msg)
    ∧ (stepRow plainEnv requiredIsoDateMapping 2 procState0 []).results.errors
        = procState0.results.errors + 1
    ∧ (stepRow plainEnv requiredIsoDateMapping 2 procState0 []).results.conflicts
        = procState0.results.conflicts
    ∧ (stepRow plainEnv requiredIsoDateMapping 2 procState0 []).results.imported
        = procState0.results.imported
    ∧ (stepRow plainEnv requiredIsoDateMapping 2 procState0 []).conflicts.map
          (fun c => c.reason)
        = procState0.conflicts.map (fun c => c.reason) ++ ["invalid_data"]
    ∧ processRowsAux plainEnv requiredIsoDateMapping ([] :: []) 2 procState0
        = processRowsAux plainEnv requiredIsoDateMapping [] (2 + 1)
            (stepRow plainEnv requiredIsoDateMapping 2 procState0 []) :=
  blank_required_cell_transform_throws plainEnv requiredIsoDateMapping
    ⟨"Date", "date", "date", "iso_date", true, "Date field"⟩ procState0 2 [] "iso_date"
    rfl (by decide) rfl (by decide)

/-- Helper: whenever the conflict is found, the handler returns the
success response and the stored conflict row ends up with
`status = 'resolved'` and the caller as resolver — for every `action`
and any `resolution_data`, and regardless of the conflict's previous
status. -/
theorem resolveConflict_post_find (st : ResolveStore) (cid uid : ℕ) (action : String)
    (rdata : Option MappedData) (c : ImportConflictRec)
    (hfind : st.conflicts.find? (fun x => x.id == cid) = some c) :
    (resolveConflict st cid action rdata uid).1 = ResolveResponse.resolved
    ∧ ((resolveConflict st cid action rdata uid).2.conflicts.find?
          (fun x => x.id == cid)).map (fun x => (x.status, x.resolved_by))
        = some ("resolved", some uid) := by
  have hconf : (resolveConflict st cid action rdata uid).2.conflicts
      = st.conflicts.map (fun x =>
          if x.id == cid then { x with status := "resolved", resolved_by := some uid }
          else x) := by
    unfold resolveConflict
    rw [hfind]
    by_cases ha : action = "import"
    · cases rdata <;> simp [ha]
    · simp [ha]
  have hresp : (resolveConflict st cid action rdata uid).1 = ResolveResponse.resolved := by
    unfold resolveConflict
    rw [hfind]
  refine ⟨hresp, ?_⟩
  rw [hconf, List.find?_map]
  have hpres : ((fun x : ImportConflictRec => x.id == cid) ∘ (fun x =>
      if x.id == cid then { x with status := "resolved", resolved_by := some uid }
      else x)) = fun x : ImportConflictRec => x.id == cid := by
    funext x
    by_cases h : x.id = cid <;> simp [beq_iff_eq, h]
  rw [hpres, hfind]
  have hc : (c.id == cid) = true := by
    have := List.find?_some hfind
    simpa using this
  have hc2 : c.id = cid := by simpa using hc
  simp [Option.map_some, hc2]

/-- C5 (counterexample): resolving the already-resolved conflict `id 1`
(resolver 7) a second time, with a different caller (9), does *not*
fail with NotFound — it succeeds and performs a second write (the
stored resolver changes), contradicting the claimed idempotent guard. -/
theorem resolve_already_resolved_not_rejected :
    (resolveConflict ⟨[⟨1, "resolved", some 7⟩], []⟩ 1 "skip" none 9).1
        = ResolveResponse.resolved
    ∧ (resolveConflict ⟨[⟨1, "resolved", some 7⟩], []⟩ 1 "skip" none 9).2
        ≠ ⟨[⟨1, "resolved", some 7⟩], []⟩ := by
  refine ⟨by decide, by decide⟩

/-- C5 (amended): the resolve operation fails with NotFound exactly when
the target conflict is absent; on an existing conflict it always
succeeds, setting `status = 'resolved'` and overwriting the resolver —
so a second resolve call on an already-resolved conflict is not
rejected and writes again.  The status value itself never returns to
`pending`, so it leaves `pending` at most once. -/
theorem resolveConflict_notFound_only_when_absent (st : ResolveStore) (cid uid : ℕ)
    (action : String) (rdata : Option MappedData) (c : ImportConflictRec) :
    (st.conflicts.find? (fun x => x.id == cid) = none →
      resolveConflict st cid action rdata uid = (ResolveResponse.notFound, st))
    ∧ (st.conflicts.find? (fun x => x.id == cid) = some c →
        (resolveConflict st cid action rdata uid).1 = ResolveResponse.resolved
        ∧ ((resolveConflict st cid action rdata uid).2.conflicts.find?
              (fun x => x.id == cid)).map (fun x => (x.status, x.resolved_by))
            = some ("resolved", some uid)) := by
  constructor
  · intro h
    unfold resolveConflict
    rw [h]
  · intro h
    exact resolveConflict_post_find st cid uid action rdata c h

/-- C5 (witness): the amended theorem at a store holding the single
pending conflict `id 1`: looking up `id 2` is NotFound, resolving
`id 1` succeeds and writes resolver 9. -/
theorem resolveConflict_notFound_only_when_absent_witness :
    resolveConflict ⟨[⟨1, "pending", none⟩], []⟩ 2 "skip" none 9
        = (ResolveResponse.notFound, ⟨[⟨1, "pending", none⟩], []⟩)
    ∧ ((resolveConflict ⟨[⟨1, "pending", none⟩], []⟩ 1 "skip" none 9).1
          = ResolveResponse.resolved
        ∧ ((resolveConflict ⟨[⟨1, "pending", none⟩], []⟩ 1 "skip" none 9).2.conflicts.find?
              (fun x => x.id == 1)).map (fun x => (x.status, x.resolved_by))
            = some ("resolved", some 9)) :=
  ⟨(resolveConflict_notFound_only_when_absent ⟨[⟨1, "pending", none⟩], []⟩ 2 9 "skip" none
      ⟨1, "pending", none⟩).1 (by decide),
   (resolveConflict_notFound_only_when_absent ⟨[⟨1, "pending", none⟩], []⟩ 1 9 "skip" none
      ⟨1, "pending", none⟩).2 (by decide)⟩

/-- C9: every resolve call on an existing conflict sets its status to
`resolved`, whatever the chosen action; the schema's `ignored` status
value is never produced by the resolution operation. -/
theorem resolve_never_produces_ignored (st : ResolveStore) (cid uid : ℕ) (action : String)
    (rdata : Option MappedData) (c : ImportConflictRec)
    (hfind : st.conflicts.find? (fun x => x.id == cid) = some c) :
    (resolveConflict st cid action rdata uid).1 = ResolveResponse.resolved
    ∧ ((resolveConflict st cid action rdata uid).2.conflicts.find?
          (fun x => x.id == cid)).map (fun x => x.status) = some "resolved"
    ∧ ((resolveConflict st cid action rdata uid).2.conflicts.find?
          (fun x => x.id == cid)).map (fun x => x.status) ≠ some "ignored" := by
  obtain ⟨h1, h2⟩ := resolveConflict_post_find st cid uid action rdata c hfind
  have hst : ((resolveConflict st cid action rdata uid).2.conflicts.find?
      (fun x => x.id == cid)).map (fun x => x.status) = some "resolved" := by
    cases hf : (resolveConflict st cid action rdata uid).2.conflicts.find?
        (fun x => x.id == cid) with
    | none =>
      rw [hf] at h2
      exact absurd h2 (by simp)
    | some x =>
      rw [hf] at h2
      simp at h2
      simp [h2.1]
  refine ⟨h1, hst, by rw [hst]; decide⟩

/-- C9 (witness): the theorem at the pending conflict `id 1` with the
non-import action `keep-original`. -/
theorem resolve_never_produces_ignored_witness :
    (resolveConflict ⟨[⟨1, "pending", none⟩], []⟩ 1 "keep-original" none 4).1
        = ResolveResponse.resolved
    ∧ ((resolveConflict ⟨[⟨1, "pending", none⟩], []⟩ 1 "keep-original" none 4).2.conflicts.find?
          (fun x => x.id == 1)).map (fun x => x.status) = some "resolved"
    ∧ ((resolveConflict ⟨[⟨1, "pending", none⟩], []⟩ 1 "keep-original" none 4).2.conflicts.find?
          (fun x => x.id == 1)).map (fun x => x.status) ≠ some "ignored" :=
  resolve_never_produces_ignored ⟨[⟨1, "pending", none⟩], []⟩ 1 4 "keep-original" none
    ⟨1, "pending", none⟩ (by decide)

/-- C7 (counterexample): `normalize("$1,000")` returns the trimmed text
`"$1,000"`, not the parsed number `1000`: the numeric test `isNumeric`
coerces the raw string (where `Number("$1,000")` is `NaN`), and the
currency/comma stripping of `normalizeNumber` is only reached after
that test has already failed. -/
theorem normalizeValue_dollar_string_stays_text :
    normalizeValue plainEnv (JVal.str "$1,000") = JVal.str "$1,000"
    ∧ JVal.str "$1,000" ≠ JVal.num 1000 := by
  refine ⟨by decide, by decide⟩

/-- C7 (amended): `normalizeValue` maps the empty string, `null` and
`undefined` to `null`; it never throws (it is a total function into
values); a string whose trimmed form is neither a date nor numeric
under the raw-string coercion falls through to the trimmed text; and
`"$1,000"` in particular is returned as a *string* for every date
parser (never as the number 1000), because `isNumeric "$1,000"` is
false — stripping of currency symbols and separators happens only
inside `normalizeNumber`, after `isNumeric` has already rejected the
raw string. -/
theorem normalizeValue_null_empty_and_text (env : JsEnv) (s : String)
    (hd : isDate env (jsTrim s) = false) (hn : isNumeric (jsTrim s) = false)
    (hs : s ≠ "") :
    normalizeValue env JVal.null = JVal.null
    ∧ normalizeValue env JVal.undefined = JVal.null
    ∧ normalizeValue env (JVal.str "") = JVal.null
    ∧ (∃ t, normalizeValue env (JVal.str "$1,000") = JVal.str t)
    ∧ normalizeValue env (JVal.str s) = JVal.str (jsTrim s) := by
  refine ⟨by simp [normalizeValue], by simp [normalizeValue], by simp [normalizeValue],
    ?_, ?_⟩
  · by_cases hdd : isDate env (jsTrim "$1,000")
    · exact ⟨(env.dateParse (jsTrim "$1,000")).getD (jsTrim "$1,000"), by
        simp +decide [normalizeValue, jsToString, hdd]⟩
    · exact ⟨jsTrim "$1,000", by
        simp +decide [normalizeValue, jsToString, hdd]⟩
  · simp [normalizeValue, jsToString, hs, hd, hn]

/-- C7 (witness): the amended theorem at the concrete non-date,
non-numeric string `" abc "`. -/
theorem normalizeValue_null_empty_and_text_witness :
    normalizeValue plainEnv JVal.null = JVal.null
    ∧ normalizeValue plainEnv JVal.undefined = JVal.null
    ∧ normalizeValue plainEnv (JVal.str "") = JVal.null
    ∧ (∃ t, normalizeValue plainEnv (JVal.str "$1,000") = JVal.str t)
    ∧ normalizeValue plainEnv (JVal.str " abc ") = JVal.str (jsTrim " abc ") :=
  normalizeValue_null_empty_and_text plainEnv " abc " (by decide) (by decide) (by decide)

/-- Helper: when every row before the last is empty and the last row is
non-empty, the header-detection loop finds exactly the last row. -/
theorem detectHeaderAux_all_empty_last (es : List (List JVal)) (hrow : List JVal)
    (hes : ∀ r ∈ es, rowNonEmpty r = false) (hh : rowNonEmpty hrow = true) :
    detectHeaderAux (es ++ [hrow]) = some es.length := by
  induction es with
  | nil => simp [detectHeaderAux, hh]
  | cons r rs ih =>
    have hr := hes r (by simp)
    simp only [List.cons_append, detectHeaderAux, hr, Bool.false_eq_true, if_false]
    rw [List.append_eq, ih (fun x hx => hes x (by simp [hx]))]
    simp [List.length_cons]

/-- Helper: `mapIdxFrom` preserves length. -/
theorem length_mapIdxFrom (f : ℕ → α → β) :
    ∀ (i : ℕ) (l : List α), (mapIdxFrom f i l).length = l.length := by
  intro i l
  induction l generalizing i with
  | nil => rfl
  | cons a as ih => simp [mapIdxFrom, ih]

/-- C8: a sheet whose only non-empty content is a header row (any run
of empty rows followed by one non-empty row) analyzes to `rows = 0`, an
empty preview and `hasData = false`, with no error (the function is
total); and for every sheet whatsoever the preview holds at most the
first 10 data rows after the header. -/
theorem analyzeSheet_header_only_and_preview_bound (env : JsEnv) (name : String)
    (es : List (List JVal)) (hrow : List JVal) (jsonData : List (List JVal))
    (hes : ∀ r ∈ es, rowNonEmpty r = false) (hh : rowNonEmpty hrow = true) :
    (analyzeSheet env (es ++ [hrow]) name).rows = 0
    ∧ (analyzeSheet env (es ++ [hrow]) name).preview = []
    ∧ (analyzeSheet env (es ++ [hrow]) name).hasData = false
    ∧ (analyzeSheet env jsonData name).preview.length ≤ 10 := by
  have hne : ¬ ((es ++ [hrow]).length = 0) := by simp
  have hdet : detectHeaderAux (es ++ [hrow]) = some es.length :=
    detectHeaderAux_all_empty_last es hrow hes hh
  have hdrop : (es ++ [hrow]).drop (es.length + 1) = [] :=
    List.drop_eq_nil_of_le (by simp)
  refine ⟨?_, ?_, ?_, ?_⟩
  · simp [analyzeSheet, hne, hdet, hdrop]
  · simp [analyzeSheet, hne, hdet, hdrop, mapIdxFrom]
  · simp [analyzeSheet, hne, hdet, hdrop]
  · by_cases hj : jsonData.length = 0
    · simp [analyzeSheet, hj]
    · simp only [analyzeSheet, hj, if_false]
      rw [length_mapIdxFrom]
      simp [List.length_take]

/-- C8 (witness): the theorem at the concrete header-only sheet
`[["Date"]]` (no leading empty rows), with the preview bound checked on
`blankRowSheet`. -/
theorem analyzeSheet_header_only_witness :
    (analyzeSheet plainEnv ([] ++ [[JVal.str "Date"]]) "Sheet1").rows = 0
    ∧ (analyzeSheet plainEnv ([] ++ [[JVal.str "Date"]]) "Sheet1").preview = []
    ∧ (analyzeSheet plainEnv ([] ++ [[JVal.str "Date"]]) "Sheet1").hasData = false
    ∧ (analyzeSheet plainEnv blankRowSheet "Sheet1").preview.length ≤ 10 :=
  analyzeSheet_header_only_and_preview_bound plainEnv "Sheet1" [] [JVal.str "Date"]
    blankRowSheet (by intro r hr; cases hr) (by decide)

/-- A store holding one soft-deleted delivery with voucher `"V1"`. -/
def softDeletedStore : List DeliveryRow := [⟨JVal.str "V1", true⟩]

/-- A mapping with one non-required voucher column (the inferencer's
suggestion for voucher headers), header on row 1. -/
def voucherMapping : ImportMapping :=
  { sheetName := "Sheet1", headerRowIndex := 1,
    columns := [⟨"Voucher", "company_voucher_no", "text", "trim", false,
      "Voucher number field"⟩] }

/-- Loop state whose deliveries table is `softDeletedStore`. -/
def voucherState : ProcState := ⟨⟨0, 0, 0, 0⟩, softDeletedStore, []⟩

/-- C10: the duplicate query matches on `company_voucher_no` alone,
with no filter on `deleted_at`, so a soft-deleted record with the same
voucher still triggers `duplicate_voucher` (the row is rejected as a
conflict, with `imported` and `total` unchanged), and a row whose
mapped voucher value is falsy (absent, empty string, `null`…) is never
flagged as a duplicate. -/
theorem isDuplicate_ignores_soft_delete (store : List DeliveryRow) (data : MappedData)
    (r : DeliveryRow) (env : JsEnv) (m : ImportMapping) (idx : ℕ) (st : ProcState)
    (row : List JVal) (data2 : MappedData) (store2 : List DeliveryRow)
    (data3 : MappedData)
    (h1 : r ∈ store) (h2 : r.deleted = true)
    (h3 : r.company_voucher_no = getField data "company_voucher_no")
    (h4 : jsTruthy (getField data "company_voucher_no") = true)
    (hmap : mapRowData env row m idx = Except.ok data2)
    (hval : validateRequiredFields data2 m = true)
    (hdup : isDuplicate st.deliveries data2 = true)
    (hfalsy : jsTruthy (getField data3 "company_voucher_no") = false) :
    isDuplicate store data = true
    ∧ (stepRow env m idx st row).conflicts
        = st.conflicts ++ [⟨idx, "duplicate_voucher", "Duplicate voucher number"⟩]
    ∧ (stepRow env m idx st row).results.conflicts = st.results.conflicts + 1
    ∧ (stepRow env m idx st row).results.imported = st.results.imported
    ∧ (stepRow env m idx st row).results.total = st.results.total
    ∧ isDuplicate store2 data3 = false := by
  refine ⟨?_, ?_, ?_, ?_, ?_, ?_⟩
  · simp only [isDuplicate, h4]
    rw [if_neg (by simp)]
    rw [List.find?_isSome]
    exact ⟨r, h1, by simp [h3]⟩
  · simp [stepRow, hmap, hval, hdup]
  · simp [stepRow, hmap, hval, hdup]
  · simp [stepRow, hmap, hval, hdup]
  · simp [stepRow, hmap, hval, hdup]
  · simp [isDuplicate, hfalsy]

/-- C10 (witness): the theorem at the soft-deleted store and the
concrete voucher row `["V1"]` of `voucherMapping`; the never-duplicate
part at an empty-string voucher. -/
theorem isDuplicate_ignores_soft_delete_witness :
    isDuplicate softDeletedStore [("company_voucher_no", JVal.str "V1")] = true
    ∧ (stepRow plainEnv voucherMapping 2 voucherState [JVal.str "V1"]).conflicts
        = voucherState.conflicts
          ++ [⟨2, "duplicate_voucher", "Duplicate voucher number"⟩]
    ∧ (stepRow plainEnv voucherMapping 2 voucherState [JVal.str "V1"]).results.conflicts
        = voucherState.results.conflicts + 1
    ∧ (stepRow plainEnv voucherMapping 2 voucherState [JVal.str "V1"]).results.imported
        = voucherState.results.imported
    ∧ (stepRow plainEnv voucherMapping 2 voucherState [JVal.str "V1"]).results.total
        = voucherState.results.total
    ∧ isDuplicate [] [("company_voucher_no", JVal.str "")] = false :=
  isDuplicate_ignores_soft_delete softDeletedStore
    [("company_voucher_no", JVal.str "V1")] ⟨JVal.str "V1", true⟩ plainEnv
    voucherMapping 2 voucherState [JVal.str "V1"]
    [("source_sheet", JVal.str "Sheet1"), ("original_row_index", JVal.num 2),
      ("company_voucher_no", JVal.str "V1")] [] [("company_voucher_no", JVal.str "")]
    (by decide) (by decide) (by decide) (by decide) (by rfl) (by decide) (by decide)
    (by decide)
